import Mathlib

/-!
Verification of the filter engine of the fillout-filter-endpoint service
(`src/api.ts`).  The core consists of a value classifier, three comparators
(string / number / date), a filter compiler (`filtersToMap`) and an
evaluator (`filterResponse`).  We embed those functions shallowly.

JavaScript runtime services that the code calls but does not define are
taken as parameters of the development:
  * `dateParse : String → Option Int` models `Date.parse`; `none` stands
    for the `NaN` result, `some t` for a numeric timestamp;
  * `toNumber : String → Option Int` models the `ToNumber` coercion that
    JavaScript applies to a string operand of `<` / `>`; `none` stands
    for `NaN`.
All theorems hold for every choice of these parameters.
-/

namespace FilloutFilter

/-- A JSON value as it may arrive in the `filters` query parameter:
`value: number | string | null` is the declared type, but JSON also allows
booleans and arrays, which the classifier must reject.  The classifier only
looks at `typeof` the value, never inside an array, so arrays are modelled
by an opaque constructor. -/
inductive JValue where
  | str (s : String)
  | num (n : Int)
  | null
  | bool (b : Bool)
  | arr
deriving DecidableEq, Repr

/-- `type FilterConditionType = 'equals' | 'does_not_equal' | 'greater_than' | 'less_than'` -/
inductive FilterConditionType where
  | equals
  | does_not_equal
  | greater_than
  | less_than
deriving DecidableEq, Repr

/-- `type FilterValueType = 'string' | 'number' | 'date' | 'null'` -/
inductive FilterValueType where
  | string
  | number
  | date
  | null
deriving DecidableEq, Repr

/-- `type FilterClauseType = { id: string; condition: FilterConditionType; value: number | string | null }` -/
structure FilterClauseType where
  id : String
  condition : FilterConditionType
  value : JValue
deriving DecidableEq, Repr

/-- The entry stored by `filtersToMap`: `{ condition, filterValType, value }`. -/
structure CompClause where
  condition : FilterConditionType
  filterValType : FilterValueType
  value : JValue
deriving DecidableEq, Repr

/-- An answer inside a submission: per the data model a question value is
`string | number | null`. -/
inductive QValue where
  | str (s : String)
  | num (n : Int)
  | null
deriving DecidableEq, Repr

/-- One question/answer pair of a submission. -/
structure Question where
  id : String
  value : QValue
deriving DecidableEq, Repr

/-- A submission record; only its `questions` list is consulted by the core. -/
structure Submission where
  questions : List Question
deriving DecidableEq, Repr

/-- The errors the core can raise: `InvalidFilterFormatError` with its
message, and the JavaScript `TypeError` raised when a method is called on
a value that lacks it. -/
inductive FilterError where
  | invalidFilterFormatError (msg : String)
  | typeError
deriving DecidableEq, Repr

/-- `s.toLowerCase()`: JavaScript lower-casing, modelled characterwise on
the string's character list. -/
def jsToLower (s : String) : List Char :=
  s.data.map Char.toLower

/-- `questionVal.includes(filterVal)` on already-lower-cased strings:
substring containment. -/
def jsIncludes (hay needle : List Char) : Bool :=
  decide (needle <:+: hay)

/-- `isDateStr`: `!isNaN(Date.parse(dateStr))`. -/
def isDateStr (dateParse : String → Option Int) (dateStr : String) : Bool :=
  (dateParse dateStr).isSome

/-- `stringComparisonFn`: lower-case both sides; `equals` is substring
containment, `does_not_equal` its negation, anything else throws
`InvalidFilterFormatError`. -/
def stringComparisonFn (filterVal questionVal : String)
    (condition : FilterConditionType) : Except FilterError Bool :=
  let f := jsToLower filterVal
  let q := jsToLower questionVal
  if condition = .equals then
    .ok (jsIncludes q f)
  else if condition = .does_not_equal then
    .ok (!jsIncludes q f)
  else
    .error (.invalidFilterFormatError
      ("Cannot filter strings with greater_than or less_than. Please use equals or does_not_equals."))

/-- `numberComparisonFn`: `===`, `!==`, `>`, and a final `else` branch that
is `<`. -/
def numberComparisonFn (filterVal questionVal : Int)
    (condition : FilterConditionType) : Bool :=
  if condition = .equals then
    questionVal = filterVal
  else if condition = .does_not_equal then
    !(questionVal = filterVal)
  else if condition = .greater_than then
    questionVal > filterVal
  else
    questionVal < filterVal

/-- `dateComparisonFn`: a question value that does not parse as a date
yields `false`; otherwise the two timestamps are handed to
`numberComparisonFn`.  When the filter value itself fails to parse its
timestamp is `NaN`: every strict comparison with `NaN` is `false` except
`!==`, which is `true`. -/
def dateComparisonFn (dateParse : String → Option Int)
    (filterVal questionVal : String)
    (condition : FilterConditionType) : Bool :=
  match dateParse questionVal with
  | none => false
  | some q =>
    match dateParse filterVal with
    | some f => numberComparisonFn f q condition
    | none => condition = .does_not_equal

/-- The value classifier inside `filtersToMap` (lines 179–191):
`typeof value` with a prior `null` check, rejection of anything that is
neither number nor string, and reclassification of date-parsable strings. -/
def classifyValue (dateParse : String → Option Int) (value : JValue) :
    Except FilterError FilterValueType :=
  match value with
  | .null => .ok .null
  | .num _ => .ok .number
  | .str s => if isDateStr dateParse s then .ok .date else .ok .string
  | _ => .error (.invalidFilterFormatError
      ("Filter values must be a number, string, date, or null."))

/-- `JSON` / JavaScript strict comparison of a numeric filter value with a
string question value, as `numberComparisonFn` behaves when its
`questionVal` argument is actually a string: `===` across distinct types is
`false`, `!==` is `true`, and `<` / `>` coerce the string with `ToNumber`
(`NaN` compares `false`). -/
def jsNumStrCompare (toNumber : String → Option Int)
    (filterVal : Int) (questionVal : String)
    (condition : FilterConditionType) : Bool :=
  if condition = .equals then
    false
  else if condition = .does_not_equal then
    true
  else if condition = .greater_than then
    match toNumber questionVal with
    | some q => q > filterVal
    | none => false
  else
    match toNumber questionVal with
    | some q => q < filterVal
    | none => false

/-- `n.toString()` for the argument `Date.parse` receives when the question
value is a number. -/
def jsIntToString (n : Int) : String := toString n

/-- The body of the evaluator's inner loop for one clause, after the
question has been found (lines 95–121): the `null` filter branch, the
`questionVal === null` exclusion, and the dispatch on `filterValType`.
Combinations of `filterValType` and stored `value` that `filtersToMap`
never produces are mapped to `TypeError`, which is also what JavaScript
raises on the reachable mismatch of a string filter against a numeric
answer (`toLowerCase` on a number). -/
def checkClause (dateParse toNumber : String → Option Int)
    (clause : CompClause) (questionVal : QValue) : Except FilterError Bool :=
  match clause.filterValType with
  | .null =>
    if clause.condition = .greater_than ∨ clause.condition = .less_than then
      .error (.invalidFilterFormatError
        ("If you\x27d like to filter on null values, please use equals or does_not_equal"))
    else
      .ok (decide ((clause.condition = .equals ∧ questionVal = .null) ∨
        (clause.condition = .does_not_equal ∧ questionVal ≠ .null)))
  | .string =>
    if questionVal = .null then .ok false
    else
      match clause.value, questionVal with
      | .str f, .str q => stringComparisonFn f q clause.condition
      | _, _ => .error .typeError
  | .date =>
    if questionVal = .null then .ok false
    else
      match clause.value, questionVal with
      | .str f, .str q => .ok (dateComparisonFn dateParse f q clause.condition)
      | .str f, .num n => .ok (dateComparisonFn dateParse f (jsIntToString n) clause.condition)
      | _, _ => .error .typeError
  | .number =>
    if questionVal = .null then .ok false
    else
      match clause.value, questionVal with
      | .num f, .num q => .ok (numberComparisonFn f q clause.condition)
      | .num f, .str s => .ok (jsNumStrCompare toNumber f s clause.condition)
      | _, _ => .error .typeError

/-- The evaluator's inner loop over the compiled filter map (insertion
order): a missing question excludes the submission and stops; a clause
returning `false` stops; a thrown error propagates. -/
def evalClauses (dateParse toNumber : String → Option Int)
    (filters : List (String × CompClause)) (questions : List Question) :
    Except FilterError Bool :=
  match filters with
  | [] => .ok true
  | (key, clause) :: rest =>
    match questions.find? (fun q => q.id == key) with
    | none => .ok false
    | some question =>
      match checkClause dateParse toNumber clause question.value with
      | .error e => .error e
      | .ok false => .ok false
      | .ok true => evalClauses dateParse toNumber rest questions

/-- `filterResponse`: keep, in order, the submissions for which every
clause passes; a thrown error aborts the whole evaluation. -/
def filterResponse (dateParse toNumber : String → Option Int)
    (responses : List Submission) (filters : List (String × CompClause)) :
    Except FilterError (List Submission) :=
  match responses with
  | [] => .ok []
  | s :: rest =>
    match evalClauses dateParse toNumber filters s.questions with
    | .error e => .error e
    | .ok true =>
      match filterResponse dateParse toNumber rest filters with
      | .error e => .error e
      | .ok out => .ok (s :: out)
    | .ok false => filterResponse dateParse toNumber rest filters

/-- The loop body of `filtersToMap` with the map built so far: a repeated
id throws, otherwise the value is classified and the entry appended (a
JavaScript `Map` iterates in insertion order). -/
def filtersToMapGo (dateParse : String → Option Int)
    (filters : List FilterClauseType) (acc : List (String × CompClause)) :
    Except FilterError (List (String × CompClause)) :=
  match filters with
  | [] => .ok acc
  | clause :: rest =>
    if (acc.find? (fun p => p.1 == clause.id)).isSome then
      .error (.invalidFilterFormatError ("Too many conditions for a single Id"))
    else
      match classifyValue dateParse clause.value with
      | .error e => .error e
      | .ok k =>
        filtersToMapGo dateParse rest
          (acc ++ [(clause.id, ⟨clause.condition, k, clause.value⟩)])

/-- `filtersToMap`: compile the clause list into the id-keyed map. -/
def filtersToMap (dateParse : String → Option Int)
    (filters : List FilterClauseType) :
    Except FilterError (List (String × CompClause)) :=
  filtersToMapGo dateParse filters []

/-- A sample date parser for concrete evaluations: recognises exactly two
ISO dates. -/
def sampleDateParse : String → Option Int := fun s =>
  if s = "2024-01-01" then some 1704067200000
  else if s = "2024-01-02" then some 1704153600000
  else none

/-- A sample `ToNumber` coercion for concrete evaluations: every string is
`NaN`. -/
def sampleToNumber : String → Option Int := fun _ => none

/-- C1: the value classifier returns `null` for a null value, an
`InvalidFilterFormat` error for a value that is neither a number, a string
nor null, `date` for a string that parses as a calendar date, otherwise the
primitive classification, and it never reclassifies a number as a date. -/
theorem c1_value_classifier (dateParse : String → Option Int) :
    classifyValue dateParse .null = .ok .null
    ∧ (∀ b, classifyValue dateParse (.bool b) =
        .error (.invalidFilterFormatError
          ("Filter values must be a number, string, date, or null.")))
    ∧ classifyValue dateParse .arr =
        .error (.invalidFilterFormatError
          ("Filter values must be a number, string, date, or null."))
    ∧ (∀ s, isDateStr dateParse s = true →
        classifyValue dateParse (.str s) = .ok .date)
    ∧ (∀ s, isDateStr dateParse s = false →
        classifyValue dateParse (.str s) = .ok .string)
    ∧ (∀ n, classifyValue dateParse (.num n) = .ok .number) := by
  refine ⟨rfl, fun b => rfl, rfl, fun s h => ?_, fun s h => ?_, fun n => rfl⟩ <;>
    simp [classifyValue, h]

/-- Witness for C1 at concrete inputs: a date-parsable string is classified
`date`, a plain string `string`, a date-like number stays `number`. -/
theorem c1_value_classifier_witness :
    classifyValue sampleDateParse (.str "2024-01-01") = .ok .date
    ∧ classifyValue sampleDateParse (.str "hello") = .ok .string
    ∧ classifyValue sampleDateParse (.num 20240101) = .ok .number := by
  obtain ⟨-, -, -, hdate, hstr, hnum⟩ := c1_value_classifier sampleDateParse
  exact ⟨hdate _ (by decide), hstr _ (by decide), hnum _⟩

/-- C2: the string comparator lower-cases both sides; `equals` is substring
containment of the filter value in the question value, `does_not_equal` its
negation, `greater_than` / `less_than` throw `InvalidFilterFormat`; in
particular filter value "jo" under `equals` accepts answer "John". -/
theorem c2_string_comparator (f q : String) :
    (stringComparisonFn f q .equals = .ok true ↔
        f.data.map Char.toLower <:+: q.data.map Char.toLower)
    ∧ (stringComparisonFn f q .does_not_equal = .ok true ↔
        ¬ f.data.map Char.toLower <:+: q.data.map Char.toLower)
    ∧ stringComparisonFn f q .greater_than =
        .error (.invalidFilterFormatError
          ("Cannot filter strings with greater_than or less_than. Please use equals or does_not_equals."))
    ∧ stringComparisonFn f q .less_than =
        .error (.invalidFilterFormatError
          ("Cannot filter strings with greater_than or less_than. Please use equals or does_not_equals."))
    ∧ stringComparisonFn "jo" "John" .equals = .ok true := by
  refine ⟨?_, ?_, rfl, rfl, ?_⟩ <;> simp [stringComparisonFn, jsIncludes, jsToLower]
  exact ⟨"".data, ['h', 'n'], by decide⟩

/-- Witness for C2 at a concrete input: "jo" under `equals` accepts
"John". -/
theorem c2_string_comparator_witness :
    stringComparisonFn "jo" "John" .equals = .ok true :=
  (c2_string_comparator "jo" "John").2.2.2.2

/-- C3: the number comparator is `==`, `!=`, `>`, `<` with the question
value on the left; `greater_than` with filter value 5 rejects 5 and
accepts 6. -/
theorem c3_number_comparator (f q : Int) :
    (numberComparisonFn f q .equals = true ↔ q = f)
    ∧ (numberComparisonFn f q .does_not_equal = true ↔ q ≠ f)
    ∧ (numberComparisonFn f q .greater_than = true ↔ q > f)
    ∧ (numberComparisonFn f q .less_than = true ↔ q < f)
    ∧ numberComparisonFn 5 5 .greater_than = false
    ∧ numberComparisonFn 5 6 .greater_than = true := by
  refine ⟨?_, ?_, ?_, ?_, by decide, by decide⟩ <;> simp [numberComparisonFn]

/-- Witness for C3 at a concrete input: `greater_than` with filter value 5
accepts 6. -/
theorem c3_number_comparator_witness :
    numberComparisonFn 5 6 .greater_than = true :=
  (c3_number_comparator 5 6).2.2.2.2.2

/-- C4: under a date-classified filter value, a question value that does
not parse as a date yields `false` — exclusion, never an error, as the
evaluator's date branch returns `.ok` — and a question value that parses is
decided by the number comparator on the two timestamps. -/
theorem c4_date_comparator (dateParse toNumber : String → Option Int)
    (f q : String) (cond : FilterConditionType)
    (_hf : isDateStr dateParse f = true) :
    (isDateStr dateParse q = false → dateComparisonFn dateParse f q cond = false)
    ∧ (∀ tf tq, dateParse f = some tf → dateParse q = some tq →
        dateComparisonFn dateParse f q cond = numberComparisonFn tf tq cond)
    ∧ (∀ s, checkClause dateParse toNumber ⟨cond, .date, .str f⟩ (.str s) =
        .ok (dateComparisonFn dateParse f s cond)) := by
  refine ⟨fun h => ?_, fun tf tq htf htq => ?_, fun s => ?_⟩
  · unfold dateComparisonFn
    cases hq : dateParse q with
    | none => rfl
    | some t => simp [isDateStr, hq] at h
  · unfold dateComparisonFn
    rw [htq, htf]
  · simp [checkClause]

/-- Witness for C4 at concrete inputs: a non-date answer is excluded, a
date answer is compared by timestamp. -/
theorem c4_date_comparator_witness :
    dateComparisonFn sampleDateParse "2024-01-02" "nope" .equals = false
    ∧ dateComparisonFn sampleDateParse "2024-01-02" "2024-01-01" .greater_than
        = numberComparisonFn 1704153600000 1704067200000 .greater_than := by
  obtain ⟨h1, -, -⟩ :=
    c4_date_comparator sampleDateParse sampleToNumber "2024-01-02" "nope" .equals (by decide)
  obtain ⟨-, h2, -⟩ :=
    c4_date_comparator sampleDateParse sampleToNumber "2024-01-02" "2024-01-01"
      .greater_than (by decide)
  exact ⟨h1 (by decide), h2 _ _ (by decide) (by decide)⟩

/-- The outcome of a single compiled clause on a question list, in
isolation: a missing question counts as `false`. -/
def clauseResult (dateParse toNumber : String → Option Int)
    (entry : String × CompClause) (questions : List Question) :
    Except FilterError Bool :=
  match questions.find? (fun q => q.id == entry.1) with
  | none => .ok false
  | some q => checkClause dateParse toNumber entry.2 q.value

theorem evalClauses_singleton (dateParse toNumber : String → Option Int)
    (key : String) (c : CompClause) (qs : List Question) (q : Question)
    (hq : qs.find? (fun qq => qq.id == key) = some q) :
    evalClauses dateParse toNumber [(key, c)] qs =
      checkClause dateParse toNumber c q.value := by
  cases h : checkClause dateParse toNumber c q.value with
  | error e => simp [evalClauses, hq, h]
  | ok b => cases b <;> simp [evalClauses, hq, h]

theorem evalClauses_append (dateParse toNumber : String → Option Int)
    (l1 l2 : List (String × CompClause)) (qs : List Question) :
    evalClauses dateParse toNumber (l1 ++ l2) qs =
      match evalClauses dateParse toNumber l1 qs with
      | .ok true => evalClauses dateParse toNumber l2 qs
      | r => r := by
  induction l1 with
  | nil => simp [evalClauses]
  | cons e rest ih =>
    obtain ⟨key, c⟩ := e
    cases hf : qs.find? (fun qq => qq.id == key) with
    | none => simp [evalClauses, hf]
    | some q =>
      cases hc : checkClause dateParse toNumber c q.value with
      | error er => simp [evalClauses, hf, hc]
      | ok b => cases b <;> simp [evalClauses, hf, hc, ih]

theorem evalClauses_eq_ok_true_iff (dateParse toNumber : String → Option Int)
    (filters : List (String × CompClause)) (qs : List Question) :
    evalClauses dateParse toNumber filters qs = .ok true ↔
      ∀ e ∈ filters, clauseResult dateParse toNumber e qs = .ok true := by
  induction filters with
  | nil => simp [evalClauses]
  | cons e rest ih =>
    obtain ⟨key, c⟩ := e
    cases hf : qs.find? (fun qq => qq.id == key) with
    | none => simp [evalClauses, clauseResult, hf]
    | some q =>
      cases hc : checkClause dateParse toNumber c q.value with
      | error er => simp [evalClauses, clauseResult, hf, hc]
      | ok b => cases b <;> simp [evalClauses, clauseResult, hf, hc, ih]

theorem mem_filterResponse (dateParse toNumber : String → Option Int)
    (subs : List Submission) (filters : List (String × CompClause))
    (out : List Submission) (x : Submission)
    (h : filterResponse dateParse toNumber subs filters = .ok out)
    (hx : x ∈ out) :
    evalClauses dateParse toNumber filters x.questions = .ok true := by
  induction subs generalizing out with
  | nil =>
    unfold filterResponse at h
    cases h
    simp at hx
  | cons s rest ih =>
    unfold filterResponse at h
    cases he : evalClauses dateParse toNumber filters s.questions with
    | error e => rw [he] at h; cases h
    | ok b =>
      cases b
      · rw [he] at h
        exact ih out h hx
      · rw [he] at h
        cases hr : filterResponse dateParse toNumber rest filters with
        | error e => rw [hr] at h; cases h
        | ok out' =>
          rw [hr] at h
          cases h
          rcases List.mem_cons.mp hx with hxs | hxs
          · rw [hxs]; exact he
          · exact ih out' hr hxs

theorem filterResponse_filter (dateParse toNumber : String → Option Int)
    (filters : List (String × CompClause)) (p : Submission → Bool)
    (subs : List Submission)
    (h : ∀ t ∈ subs, evalClauses dateParse toNumber filters t.questions = .ok (p t)) :
    filterResponse dateParse toNumber subs filters = .ok (subs.filter p) := by
  induction subs with
  | nil => rfl
  | cons s rest ih =>
    have hs := h s (by simp)
    have hrest := ih (fun t ht => h t (by simp [ht]))
    cases hp : p s <;> rw [hp] at hs <;>
      simp [filterResponse, hs, hp, hrest, List.filter_cons]

/-- C5: a compiled clause with valueKind `null`, evaluated against a
submission that contains the clause's question: `greater_than` and
`less_than` throw `InvalidFilterFormat`; `equals` passes exactly when the
answer is null; `does_not_equal` exactly when it is not; consequently over
a submission list in which every submission has the question, the `equals`
filter keeps exactly the null-answered submissions and `does_not_equal`
keeps the complement. -/
theorem c5_null_filter (dateParse toNumber : String → Option Int)
    (key : String) (v : JValue) (s : Submission) (q : Question)
    (hq : s.questions.find? (fun qq => qq.id == key) = some q) :
    (∀ cond, cond = .greater_than ∨ cond = .less_than →
      evalClauses dateParse toNumber [(key, ⟨cond, .null, v⟩)] s.questions =
        .error (.invalidFilterFormatError
          ("If you\x27d like to filter on null values, please use equals or does_not_equal")))
    ∧ evalClauses dateParse toNumber [(key, ⟨.equals, .null, v⟩)] s.questions =
        .ok (decide (q.value = .null))
    ∧ evalClauses dateParse toNumber [(key, ⟨.does_not_equal, .null, v⟩)] s.questions =
        .ok (decide (q.value ≠ .null))
    ∧ (∀ subs : List Submission,
        (∀ t ∈ subs, ∃ qt, t.questions.find? (fun qq => qq.id == key) = some qt) →
        filterResponse dateParse toNumber subs [(key, ⟨.equals, .null, v⟩)] =
          .ok (subs.filter (fun t =>
            ((t.questions.find? (fun qq => qq.id == key)).map
              (fun qt => decide (qt.value = .null))).getD false)))
    ∧ (∀ subs : List Submission,
        (∀ t ∈ subs, ∃ qt, t.questions.find? (fun qq => qq.id == key) = some qt) →
        filterResponse dateParse toNumber subs [(key, ⟨.does_not_equal, .null, v⟩)] =
          .ok (subs.filter (fun t =>
            ((t.questions.find? (fun qq => qq.id == key)).map
              (fun qt => decide (qt.value ≠ .null))).getD false))) := by
  refine ⟨fun cond hcond => ?_, ?_, ?_, fun subs hall => ?_, fun subs hall => ?_⟩
  · rw [evalClauses_singleton dateParse toNumber key _ s.questions q hq]
    rcases hcond with h | h <;> subst h <;> simp [checkClause]
  · rw [evalClauses_singleton dateParse toNumber key _ s.questions q hq]
    simp [checkClause]
  · rw [evalClauses_singleton dateParse toNumber key _ s.questions q hq]
    simp [checkClause]
  · refine filterResponse_filter dateParse toNumber _ _ subs (fun t ht => ?_)
    obtain ⟨qt, hqt⟩ := hall t ht
    rw [evalClauses_singleton dateParse toNumber key _ t.questions qt hqt, hqt]
    simp [checkClause]
  · refine filterResponse_filter dateParse toNumber _ _ subs (fun t ht => ?_)
    obtain ⟨qt, hqt⟩ := hall t ht
    rw [evalClauses_singleton dateParse toNumber key _ t.questions qt hqt, hqt]
    simp [checkClause]

/-- Witness for C5 at concrete inputs: the question "q1" is present with a
null answer; `greater_than` raises, `equals` keeps the submission,
`does_not_equal` drops it. -/
theorem c5_null_filter_witness :
    evalClauses sampleDateParse sampleToNumber
        [("q1", ⟨.greater_than, .null, .null⟩)] [⟨"q1", .null⟩] =
      .error (.invalidFilterFormatError
        ("If you\x27d like to filter on null values, please use equals or does_not_equal"))
    ∧ evalClauses sampleDateParse sampleToNumber
        [("q1", ⟨.equals, .null, .null⟩)] [⟨"q1", .null⟩] = .ok true
    ∧ evalClauses sampleDateParse sampleToNumber
        [("q1", ⟨.does_not_equal, .null, .null⟩)] [⟨"q1", .null⟩] = .ok false := by
  obtain ⟨hgt, heq, hne, -, -⟩ :=
    c5_null_filter sampleDateParse sampleToNumber "q1" .null
      ⟨[⟨"q1", .null⟩]⟩ ⟨"q1", .null⟩ (by decide)
  exact ⟨hgt .greater_than (Or.inl rfl), heq, hne⟩

/-- C6: a submission lacking a question for one of the compiled clause ids
is excluded: when that clause is reached its result is `false` no matter
what clauses follow, and for any compiled filter containing the clause, a
successful evaluation never includes the submission in its output. -/
theorem c6_missing_question (dateParse toNumber : String → Option Int)
    (key : String) (cc : CompClause) (s : Submission)
    (habs : s.questions.find? (fun q => q.id == key) = none) :
    (∀ pre rest, evalClauses dateParse toNumber pre s.questions = .ok true →
      evalClauses dateParse toNumber (pre ++ (key, cc) :: rest) s.questions = .ok false)
    ∧ (∀ filters, (key, cc) ∈ filters → ∀ subs out,
        filterResponse dateParse toNumber subs filters = .ok out → s ∉ out) := by
  constructor
  · intro pre rest hpre
    rw [evalClauses_append, hpre]
    simp [evalClauses, habs]
  · intro filters hmem subs out hfr hs
    have htrue := mem_filterResponse dateParse toNumber subs filters out s hfr hs
    have hall := (evalClauses_eq_ok_true_iff dateParse toNumber filters s.questions).mp htrue
    have := hall (key, cc) hmem
    rw [clauseResult, habs] at this
    cases this

/-- Witness for C6 at concrete inputs: a submission without question "q1"
is rejected by the clause and absent from the evaluator's output. -/
theorem c6_missing_question_witness :
    evalClauses sampleDateParse sampleToNumber
        [("q1", ⟨.equals, .string, .str "x"⟩)] [⟨"other", .null⟩] = .ok false
    ∧ (Submission.mk [⟨"other", .null⟩]) ∉ ([] : List Submission) := by
  obtain ⟨h1, h2⟩ :=
    c6_missing_question sampleDateParse sampleToNumber "q1"
      ⟨.equals, .string, .str "x"⟩ ⟨[⟨"other", .null⟩]⟩ (by decide)
  refine ⟨?_, ?_⟩
  · have := h1 [] [] rfl
    simpa using this
  · exact h2 [("q1", ⟨.equals, .string, .str "x"⟩)] (by simp)
      [⟨[⟨"other", .null⟩]⟩] [] (by rfl)

/-- C8: the evaluator with an empty compiled filter returns the submission
list unchanged, and any successful evaluation returns a sublist of its
input — order preserved, nothing duplicated or introduced. -/
theorem c8_identity_sublist (dateParse toNumber : String → Option Int)
    (subs : List Submission) :
    filterResponse dateParse toNumber subs [] = .ok subs
    ∧ (∀ filters out, filterResponse dateParse toNumber subs filters = .ok out →
        out.Sublist subs) := by
  constructor
  · induction subs with
    | nil => rfl
    | cons s rest ih => simp [filterResponse, evalClauses, ih]
  · intro filters out h
    induction subs generalizing out with
    | nil =>
      unfold filterResponse at h
      cases h
      exact List.nil_sublist []
    | cons s rest ih =>
      unfold filterResponse at h
      cases he : evalClauses dateParse toNumber filters s.questions with
      | error e => rw [he] at h; cases h
      | ok b =>
        cases b
        · rw [he] at h
          exact (ih out h).cons s
        · rw [he] at h
          cases hr : filterResponse dateParse toNumber rest filters with
          | error e => rw [hr] at h; cases h
          | ok out' =>
            rw [hr] at h
            cases h
            exact (ih out' hr).cons₂ s

/-- Witness for C8 at concrete inputs: identity on a two-element list, and
the sublist property instantiated through the identity case itself. -/
theorem c8_identity_sublist_witness :
    filterResponse sampleDateParse sampleToNumber
        [⟨[⟨"a", .num 1⟩]⟩, ⟨[]⟩] [] = .ok [⟨[⟨"a", .num 1⟩]⟩, ⟨[]⟩]
    ∧ List.Sublist [⟨[⟨"a", .num 1⟩]⟩, (⟨[]⟩ : Submission)]
        [⟨[⟨"a", .num 1⟩]⟩, ⟨[]⟩] := by
  obtain ⟨hid, hsub⟩ :=
    c8_identity_sublist sampleDateParse sampleToNumber [⟨[⟨"a", .num 1⟩]⟩, ⟨[]⟩]
  exact ⟨hid, hsub [] _ hid⟩

/-- C10: compilation never looks at a clause's condition, so a null-valued
`greater_than`/`less_than` clause compiles; the `InvalidFilterFormat` for
it surfaces only during evaluation, per submission, after the question is
found: an empty submission list, a question id no submission has, or
exclusion of every submission by an earlier clause all evaluate without
error, while a submission that does reach the clause with the question
present makes the evaluation raise. -/
theorem c10_lazy_null_error (dateParse toNumber : String → Option Int)
    (id0 : String) (cond : FilterConditionType)
    (hcond : cond = .greater_than ∨ cond = .less_than) :
    filtersToMap dateParse [⟨id0, cond, .null⟩] = .ok [(id0, ⟨cond, .null, .null⟩)]
    ∧ (∀ pre, filterResponse dateParse toNumber []
        (pre ++ [(id0, ⟨cond, .null, .null⟩)]) = .ok [])
    ∧ (∀ subs : List Submission,
        (∀ s ∈ subs, s.questions.find? (fun q => q.id == id0) = none) →
        filterResponse dateParse toNumber subs [(id0, ⟨cond, .null, .null⟩)] = .ok [])
    ∧ (∀ pre (subs : List Submission),
        (∀ s ∈ subs, evalClauses dateParse toNumber pre s.questions = .ok false) →
        filterResponse dateParse toNumber subs
          (pre ++ [(id0, ⟨cond, .null, .null⟩)]) = .ok [])
    ∧ (∀ (s : Submission) q, s.questions.find? (fun qq => qq.id == id0) = some q →
        filterResponse dateParse toNumber [s] [(id0, ⟨cond, .null, .null⟩)] =
          .error (.invalidFilterFormatError
            ("If you\x27d like to filter on null values, please use equals or does_not_equal"))) := by
  refine ⟨?_, fun pre => rfl, fun subs hall => ?_, fun pre subs hall => ?_,
    fun s q hq => ?_⟩
  · rfl
  · have h := filterResponse_filter dateParse toNumber
      [(id0, ⟨cond, .null, .null⟩)] (fun _ => false) subs
      (fun t ht => by simp [evalClauses, hall t ht])
    simpa using h
  · have h := filterResponse_filter dateParse toNumber
      (pre ++ [(id0, ⟨cond, .null, .null⟩)]) (fun _ => false) subs
      (fun t ht => by rw [evalClauses_append, hall t ht])
    simpa using h
  · have he : evalClauses dateParse toNumber
        [(id0, ⟨cond, .null, .null⟩)] s.questions =
        .error (.invalidFilterFormatError
          ("If you\x27d like to filter on null values, please use equals or does_not_equal")) := by
      rw [evalClauses_singleton dateParse toNumber id0 _ s.questions q hq]
      rcases hcond with h | h <;> subst h <;> simp [checkClause]
    simp [filterResponse, he]

/-- Witness for C10 at concrete inputs: the null `greater_than` clause
compiles, evaluates without error on an empty list and on a submission
lacking the question, and raises on a submission that has it. -/
theorem c10_lazy_null_error_witness :
    filtersToMap sampleDateParse [⟨"q1", .greater_than, .null⟩] =
      .ok [("q1", ⟨.greater_than, .null, .null⟩)]
    ∧ filterResponse sampleDateParse sampleToNumber []
        [("q1", ⟨.greater_than, .null, .null⟩)] = .ok []
    ∧ filterResponse sampleDateParse sampleToNumber [⟨[⟨"other", .num 3⟩]⟩]
        [("q1", ⟨.greater_than, .null, .null⟩)] = .ok []
    ∧ filterResponse sampleDateParse sampleToNumber [⟨[⟨"q1", .num 3⟩]⟩]
        [("q1", ⟨.greater_than, .null, .null⟩)] =
      .error (.invalidFilterFormatError
        ("If you\x27d like to filter on null values, please use equals or does_not_equal")) := by
  obtain ⟨h1, h2, h3, -, h5⟩ :=
    c10_lazy_null_error sampleDateParse sampleToNumber "q1" .greater_than (Or.inl rfl)
  refine ⟨h1, ?_, ?_, ?_⟩
  · simpa using h2 []
  · exact h3 [⟨[⟨"other", .num 3⟩]⟩] (by simp)
  · exact h5 ⟨[⟨"q1", .num 3⟩]⟩ ⟨"q1", .num 3⟩ (by decide)

/-- The entry `filtersToMap` stores for a clause whose value classifies
successfully; an unclassifiable value (which makes `filtersToMap` throw
before storing anything) is given an arbitrary kind, only ever mentioned
under a success hypothesis. -/
def compiledEntry (dateParse : String → Option Int) (c : FilterClauseType) :
    String × CompClause :=
  (c.id, ⟨c.condition,
    match classifyValue dateParse c.value with
    | .ok k => k
    | .error _ => .null,
    c.value⟩)

theorem compiledEntry_eq (dateParse : String → Option Int)
    (c : FilterClauseType) (k : FilterValueType)
    (hk : classifyValue dateParse c.value = .ok k) :
    compiledEntry dateParse c = (c.id, ⟨c.condition, k, c.value⟩) := by
  simp [compiledEntry, hk]

theorem filtersToMapGo_ok (dateParse : String → Option Int)
    (filters : List FilterClauseType) (acc : List (String × CompClause))
    (hcls : ∀ c ∈ filters, ∃ k, classifyValue dateParse c.value = .ok k)
    (hnodup : (acc.map Prod.fst ++ filters.map (fun c => c.id)).Nodup) :
    filtersToMapGo dateParse filters acc =
      .ok (acc ++ filters.map (compiledEntry dateParse)) := by
  induction filters generalizing acc with
  | nil => simp [filtersToMapGo]
  | cons c rest ih =>
    have hnotmem : c.id ∉ acc.map Prod.fst := by
      intro hmem
      rcases List.nodup_append.mp hnodup with ⟨-, -, hdisj⟩
      exact hdisj hmem (by simp)
    have hfind : acc.find? (fun p => p.1 == c.id) = none := by
      rw [List.find?_eq_none]
      intro p hp hbeq
      exact hnotmem (by
        have : p.1 = c.id := by simpa using hbeq
        exact this ▸ List.mem_map_of_mem Prod.fst hp)
    obtain ⟨k, hk⟩ := hcls c (by simp)
    have hrest : (((acc ++ [(c.id, (⟨c.condition, k, c.value⟩ : CompClause))]).map Prod.fst)
        ++ rest.map (fun c => c.id)).Nodup := by
      rw [List.map_append, List.append_assoc]
      simpa using hnodup
    rw [filtersToMapGo, hfind]
    simp only [Option.isSome_none, Bool.false_eq_true, if_false, hk]
    rw [ih _ (fun d hd => hcls d (by simp [hd])) hrest]
    rw [List.map_cons, compiledEntry_eq dateParse c k hk]
    simp

theorem filtersToMapGo_dup (dateParse : String → Option Int)
    (filters : List FilterClauseType) (acc : List (String × CompClause))
    (hcls : ∀ c ∈ filters, ∃ k, classifyValue dateParse c.value = .ok k)
    (haccnodup : (acc.map Prod.fst).Nodup)
    (hdup : ¬ (acc.map Prod.fst ++ filters.map (fun c => c.id)).Nodup) :
    filtersToMapGo dateParse filters acc =
      .error (.invalidFilterFormatError ("Too many conditions for a single Id")) := by
  induction filters generalizing acc with
  | nil => simp at hdup; exact absurd haccnodup hdup
  | cons c rest ih =>
    cases hfind : acc.find? (fun p => p.1 == c.id) with
    | some p => rw [filtersToMapGo, hfind]; rfl
    | none =>
      have hnotmem : c.id ∉ acc.map Prod.fst := by
        intro hmem
        obtain ⟨p, hp, hpid⟩ := List.mem_map.mp hmem
        have := List.find?_eq_none.mp hfind p hp
        simp [hpid] at this
      obtain ⟨k, hk⟩ := hcls c (by simp)
      rw [filtersToMapGo, hfind]
      simp only [Option.isSome_none, Bool.false_eq_true, if_false, hk]
      refine ih _ (fun d hd => hcls d (by simp [hd])) ?_ ?_
      · rw [List.map_append, List.nodup_append]
        refine ⟨haccnodup, by simp, fun a ha hb => ?_⟩
        have hab : a = c.id := by simpa using hb
        exact hnotmem (hab ▸ ha)
      · intro hn
        rw [List.map_append, List.append_assoc] at hn
        exact hdup (by simpa using hn)

theorem find?_map_compiledEntry (dateParse : String → Option Int)
    (filters : List FilterClauseType) (c : FilterClauseType)
    (hmem : c ∈ filters) (hnodup : (filters.map (fun d => d.id)).Nodup) :
    (filters.map (compiledEntry dateParse)).find? (fun p => p.1 == c.id) =
      some (compiledEntry dateParse c) := by
  induction filters with
  | nil => simp at hmem
  | cons d rest ih =>
    rcases List.mem_cons.mp hmem with hdc | hcr
    · subst hdc
      simp [List.find?_cons, compiledEntry]
    · have hne : d.id ≠ c.id := by
        intro he
        have : c.id ∈ rest.map (fun d => d.id) :=
          List.mem_map_of_mem (fun d => d.id) hcr
        rw [← he] at this
        exact (List.nodup_cons.mp hnodup).1 this
      rw [List.map_cons, List.find?_cons]
      have : ((compiledEntry dateParse d).1 == c.id) = false := by
        simp [compiledEntry, hne]
      rw [this]
      exact ih hcr (List.nodup_cons.mp hnodup).2

/-- C7 counterexample to the claim as stated: a clause list that contains a
duplicate id but whose first clause carries a boolean value raises the
unclassifiable-value message, not "Too many conditions for a single Id". -/
theorem c7_compile_counterexample :
    filtersToMap sampleDateParse
      [⟨"a", .equals, .bool true⟩, ⟨"b", .equals, .null⟩, ⟨"b", .equals, .null⟩] =
      .error (.invalidFilterFormatError
        ("Filter values must be a number, string, date, or null."))
    ∧ FilterError.invalidFilterFormatError
        ("Filter values must be a number, string, date, or null.") ≠
      FilterError.invalidFilterFormatError ("Too many conditions for a single Id") := by
  exact ⟨rfl, by decide⟩

/-- C7 (amended): provided every clause value classifies successfully,
compiling a list with two clauses of the same id raises "Too many
conditions for a single Id", and compiling a list with pairwise distinct
ids succeeds, mapping each id to its clause's condition, inferred
valueKind and unchanged value. -/
theorem c7_compile (dateParse : String → Option Int)
    (filters : List FilterClauseType)
    (hcls : ∀ c ∈ filters, ∃ k, classifyValue dateParse c.value = .ok k) :
    (¬ (filters.map (fun c => c.id)).Nodup →
      filtersToMap dateParse filters =
        .error (.invalidFilterFormatError ("Too many conditions for a single Id")))
    ∧ ((filters.map (fun c => c.id)).Nodup →
      filtersToMap dateParse filters = .ok (filters.map (compiledEntry dateParse))
      ∧ ∀ c ∈ filters, ∃ k, classifyValue dateParse c.value = .ok k ∧
          (filters.map (compiledEntry dateParse)).find? (fun p => p.1 == c.id) =
            some (c.id, ⟨c.condition, k, c.value⟩)) := by
  constructor
  · intro hdup
    exact filtersToMapGo_dup dateParse filters [] hcls (by simp) (by simpa using hdup)
  · intro hnodup
    refine ⟨by simpa using filtersToMapGo_ok dateParse filters [] hcls (by simpa using hnodup),
      fun c hc => ?_⟩
    obtain ⟨k, hk⟩ := hcls c hc
    refine ⟨k, hk, ?_⟩
    rw [find?_map_compiledEntry dateParse filters c hc hnodup,
      compiledEntry_eq dateParse c k hk]

/-- Witness for C7 at concrete inputs: a duplicated id with classifiable
values raises the duplicate error; distinct ids compile to the expected
map. -/
theorem c7_compile_witness :
    filtersToMap sampleDateParse
      [⟨"a", .equals, .num 1⟩, ⟨"a", .less_than, .num 2⟩] =
      .error (.invalidFilterFormatError ("Too many conditions for a single Id"))
    ∧ filtersToMap sampleDateParse
        [⟨"a", .equals, .num 1⟩, ⟨"b", .greater_than, .str "2024-01-01"⟩] =
      .ok [("a", ⟨.equals, .number, .num 1⟩),
        ("b", ⟨.greater_than, .date, .str "2024-01-01"⟩)] := by
  obtain ⟨hdup, -⟩ :=
    c7_compile sampleDateParse
      [⟨"a", .equals, .num 1⟩, ⟨"a", .less_than, .num 2⟩]
      (by intro c hc
          rcases List.mem_cons.mp hc with rfl | hc
          · exact ⟨.number, rfl⟩
          rcases List.mem_cons.mp hc with rfl | hc
          · exact ⟨.number, rfl⟩
          simp at hc)
  obtain ⟨-, hok⟩ :=
    c7_compile sampleDateParse
      [⟨"a", .equals, .num 1⟩, ⟨"b", .greater_than, .str "2024-01-01"⟩]
      (by intro c hc
          rcases List.mem_cons.mp hc with rfl | hc
          · exact ⟨.number, rfl⟩
          rcases List.mem_cons.mp hc with rfl | hc
          · exact ⟨.date, rfl⟩
          simp at hc)
  refine ⟨hdup (by decide), ?_⟩
  have h := (hok (by decide)).1
  rw [h]
  rfl

/-- The boolean a successful (non-throwing) evaluation assigns to one
submission. -/
def evalPass (dateParse toNumber : String → Option Int)
    (filters : List (String × CompClause)) (t : Submission) : Bool :=
  match evalClauses dateParse toNumber filters t.questions with
  | .ok true => true
  | _ => false

theorem filterResponse_ok_eq_filter (dateParse toNumber : String → Option Int)
    (subs : List Submission) (filters : List (String × CompClause))
    (out : List Submission)
    (h : filterResponse dateParse toNumber subs filters = .ok out) :
    out = subs.filter (evalPass dateParse toNumber filters) := by
  induction subs generalizing out with
  | nil =>
    unfold filterResponse at h
    cases h
    rfl
  | cons s rest ih =>
    unfold filterResponse at h
    cases he : evalClauses dateParse toNumber filters s.questions with
    | error e => rw [he] at h; cases h
    | ok b =>
      cases b
      · rw [he] at h
        have hp : evalPass dateParse toNumber filters s = false := by
          simp [evalPass, he]
        rw [List.filter_cons, hp]
        simpa using ih out h
      · rw [he] at h
        cases hr : filterResponse dateParse toNumber rest filters with
        | error e => rw [hr] at h; cases h
        | ok out' =>
          rw [hr] at h
          cases h
          have hp : evalPass dateParse toNumber filters s = true := by
            simp [evalPass, he]
          rw [List.filter_cons, hp]
          simpa using ih out' hr

theorem filterResponse_ok_eval (dateParse toNumber : String → Option Int)
    (subs : List Submission) (filters : List (String × CompClause))
    (out : List Submission)
    (h : filterResponse dateParse toNumber subs filters = .ok out) :
    ∀ t ∈ subs, ∃ b, evalClauses dateParse toNumber filters t.questions = .ok b := by
  induction subs generalizing out with
  | nil => intro t ht; simp at ht
  | cons s rest ih =>
    intro t ht
    unfold filterResponse at h
    cases he : evalClauses dateParse toNumber filters s.questions with
    | error e => rw [he] at h; cases h
    | ok b =>
      rcases List.mem_cons.mp ht with rfl | htr
      · exact ⟨b, he⟩
      · cases b
        · rw [he] at h
          exact ih out h t htr
        · rw [he] at h
          cases hr : filterResponse dateParse toNumber rest filters with
          | error e => rw [hr] at h; cases h
          | ok out' =>
            rw [hr] at h
            exact ih out' hr t htr

theorem evalClauses_perm_ok (dateParse toNumber : String → Option Int)
    (m1 m2 : List (String × CompClause)) (hp : m1.Perm m2)
    (qs : List Question) (b1 b2 : Bool)
    (h1 : evalClauses dateParse toNumber m1 qs = .ok b1)
    (h2 : evalClauses dateParse toNumber m2 qs = .ok b2) : b1 = b2 := by
  cases b1 <;> cases b2
  · rfl
  · exfalso
    have hall := (evalClauses_eq_ok_true_iff dateParse toNumber m2 qs).mp h2
    have h1t : evalClauses dateParse toNumber m1 qs = .ok true :=
      (evalClauses_eq_ok_true_iff dateParse toNumber m1 qs).mpr
        (fun e he => hall e (hp.subset he))
    rw [h1t] at h1
    simp at h1
  · exfalso
    have hall := (evalClauses_eq_ok_true_iff dateParse toNumber m1 qs).mp h1
    have h2t : evalClauses dateParse toNumber m2 qs = .ok true :=
      (evalClauses_eq_ok_true_iff dateParse toNumber m2 qs).mpr
        (fun e he => hall e (hp.symm.subset he))
    rw [h2t] at h2
    simp at h2
  · rfl

theorem filtersToMapGo_ok_inv (dateParse : String → Option Int)
    (filters : List FilterClauseType) :
    ∀ (acc : List (String × CompClause)) m,
      filtersToMapGo dateParse filters acc = .ok m →
      m = acc ++ filters.map (compiledEntry dateParse) := by
  induction filters with
  | nil =>
    intro acc m h
    cases h
    simp
  | cons c rest ih =>
    intro acc m h
    rw [filtersToMapGo] at h
    cases hf : (acc.find? (fun p => p.1 == c.id)).isSome with
    | true => rw [hf] at h; simp at h
    | false =>
      rw [hf] at h
      simp only [Bool.false_eq_true, if_false] at h
      cases hk : classifyValue dateParse c.value with
      | error e => rw [hk] at h; cases h
      | ok k =>
        rw [hk] at h
        have := ih _ m h
        rw [this, List.map_cons, compiledEntry_eq dateParse c k hk]
        simp

theorem filtersToMap_ok_inv (dateParse : String → Option Int)
    (filters : List FilterClauseType) (m : List (String × CompClause))
    (h : filtersToMap dateParse filters = .ok m) :
    m = filters.map (compiledEntry dateParse) := by
  simpa using filtersToMapGo_ok_inv dateParse filters [] m h

/-- C9 counterexample to the claim as stated: two clause lists that are
permutations of each other, both compiling without error, on which
evaluation disagrees — one order reaches the null `greater_than` clause
and raises, the reversed order short-circuits on a failing string clause
and returns the empty list. -/
theorem c9_order_counterexample :
    ([⟨"a", .greater_than, .null⟩, ⟨"b", .equals, .str "x"⟩] :
        List FilterClauseType).Perm
      [⟨"b", .equals, .str "x"⟩, ⟨"a", .greater_than, .null⟩]
    ∧ filtersToMap sampleDateParse
        [⟨"a", .greater_than, .null⟩, ⟨"b", .equals, .str "x"⟩] =
      .ok [("a", ⟨.greater_than, .null, .null⟩), ("b", ⟨.equals, .string, .str "x"⟩)]
    ∧ filtersToMap sampleDateParse
        [⟨"b", .equals, .str "x"⟩, ⟨"a", .greater_than, .null⟩] =
      .ok [("b", ⟨.equals, .string, .str "x"⟩), ("a", ⟨.greater_than, .null, .null⟩)]
    ∧ filterResponse sampleDateParse sampleToNumber
        [⟨[⟨"a", .null⟩, ⟨"b", .str "zzz"⟩]⟩]
        [("a", ⟨.greater_than, .null, .null⟩), ("b", ⟨.equals, .string, .str "x"⟩)] =
      .error (.invalidFilterFormatError
        ("If you\x27d like to filter on null values, please use equals or does_not_equal"))
    ∧ filterResponse sampleDateParse sampleToNumber
        [⟨[⟨"a", .null⟩, ⟨"b", .str "zzz"⟩]⟩]
        [("b", ⟨.equals, .string, .str "x"⟩), ("a", ⟨.greater_than, .null, .null⟩)] =
      .ok [] :=
  ⟨List.Perm.swap _ _ _, rfl, rfl, rfl, rfl⟩

/-- C9 (amended): for every submission list and every two clause lists
that are permutations of each other, each compiling without error, if
both evaluations also complete without raising then they produce the same
filtered submission list; clause order can only decide whether an error
is reached, never which submissions pass. -/
theorem c9_order_independent (dateParse toNumber : String → Option Int)
    (cl1 cl2 : List FilterClauseType) (subs : List Submission)
    (m1 m2 : List (String × CompClause)) (out1 out2 : List Submission)
    (hperm : cl1.Perm cl2)
    (h1 : filtersToMap dateParse cl1 = .ok m1)
    (h2 : filtersToMap dateParse cl2 = .ok m2)
    (e1 : filterResponse dateParse toNumber subs m1 = .ok out1)
    (e2 : filterResponse dateParse toNumber subs m2 = .ok out2) :
    out1 = out2 := by
  have hm : m1.Perm m2 := by
    rw [filtersToMap_ok_inv dateParse cl1 m1 h1,
      filtersToMap_ok_inv dateParse cl2 m2 h2]
    exact hperm.map (compiledEntry dateParse)
  rw [filterResponse_ok_eq_filter dateParse toNumber subs m1 out1 e1,
    filterResponse_ok_eq_filter dateParse toNumber subs m2 out2 e2]
  refine List.filter_congr (fun t ht => ?_)
  obtain ⟨b1, hb1⟩ := filterResponse_ok_eval dateParse toNumber subs m1 out1 e1 t ht
  obtain ⟨b2, hb2⟩ := filterResponse_ok_eval dateParse toNumber subs m2 out2 e2 t ht
  have hb := evalClauses_perm_ok dateParse toNumber m1 m2 hm t.questions b1 b2 hb1 hb2
  subst hb
  simp [evalPass, hb1, hb2]

/-- Witness for C9 (amended) at concrete inputs: a two-clause filter in
both orders keeps the same submission. -/
theorem c9_order_independent_witness :
    ([⟨[⟨"a", .num 1⟩, ⟨"b", .str "hello"⟩]⟩] : List Submission) =
      [⟨[⟨"a", .num 1⟩, ⟨"b", .str "hello"⟩]⟩] :=
  c9_order_independent sampleDateParse sampleToNumber
    [⟨"a", .equals, .num 1⟩, ⟨"b", .does_not_equal, .str "x"⟩]
    [⟨"b", .does_not_equal, .str "x"⟩, ⟨"a", .equals, .num 1⟩]
    [⟨[⟨"a", .num 1⟩, ⟨"b", .str "hello"⟩]⟩]
    [("a", ⟨.equals, .number, .num 1⟩), ("b", ⟨.does_not_equal, .string, .str "x"⟩)]
    [("b", ⟨.does_not_equal, .string, .str "x"⟩), ("a", ⟨.equals, .number, .num 1⟩)]
    _ _ (List.Perm.swap _ _ _) rfl rfl rfl rfl

end FilloutFilter
